import Mathlib

/-!
# qSQLA — verification of the query-syntax core

A shallow embedding of `qsqla/query.py`: the operator grammar and dispatch
engine that turns flat URL query parameters into filter predicates over a
SQLAlchemy selectable or ORM model.  Python strings are Lean `String`s,
Python exceptions become an explicit error type threaded through `Except`,
SQLAlchemy column types become a small inductive type, and the constructed
SQLAlchemy expressions become an inductive predicate language.
-/

namespace QSqla

/-- The failure taxonomy of the core.  Each constructor stands for one of the
Python exceptions the source raises (the spec's names in parentheses):
`invalidParameter` is the `ValueError` from `split_operator` on an empty
name, `columnNotFound` the `KeyError` from `get_column` / the
`AttributeError` from a failed `getattr` lookup on a model,
`unsupportedOperator` the `TypeError` from `requires_types` (it carries the
field name, as the Python message does), `conversionError` the `ValueError`
from `int(value)`, `notMapped` the `TypeError` from
`requires_mapped_attribute`, `malformedSubquery` the `KeyError` from
`get_subquery`, `unknownOperator` the `KeyError` from indexing the
`OPERATORS` dict, and `pyRuntimeError` any other dynamic failure on code
paths the orchestrator cannot reach (e.g. `int(None)`). -/
inductive QErr where
  | invalidParameter
  | columnNotFound (name : String)
  | unsupportedOperator (field : String)
  | conversionError
  | notMapped (attr : String)
  | malformedSubquery
  | unknownOperator (op : String)
  | pyRuntimeError
deriving DecidableEq, Repr

/-- SQLAlchemy column types as used by the source: the four recognized base
types, `decorated` for a `TypeDecorator` whose `impl` is the wrapped type,
and `other` for any unrecognized type. -/
inductive SqlType where
  | integer
  | boolean
  | string
  | dateTime
  | decorated (impl : SqlType)
  | other
deriving DecidableEq, Repr

/-- The type classes passed to `requires_types` in the source
(`sqlalchemy.types.Integer` etc.). -/
inductive TypeClass where
  | integer
  | boolean
  | string
  | dateTime
deriving DecidableEq, Repr

/-- `getattr(t, 'impl', t)`: unwrap one level of type decoration.  The source
performs this both on the type instance (in `requires_types`) and on its
class (in `convert_type`); on this model both collapse to removing one
`decorated` wrapper. -/
def basetype : SqlType → SqlType
  | .decorated impl => impl
  | t => t

/-- `isinstance(t, c)` / `issubclass(t, c)` for the four recognized type
classes.  A still-decorated or unrecognized type is an instance of none. -/
def isinstanceOf : SqlType → TypeClass → Bool
  | .integer, .integer => true
  | .boolean, .boolean => true
  | .string, .string => true
  | .dateTime, .dateTime => true
  | _, _ => false

/-- A column of a selectable or model: its SQL name and declared type. -/
structure Column where
  name : String
  type : SqlType
deriving DecidableEq, Repr

/-- An attribute of an ORM model: either a plain column or a relationship.
A relationship carries its attribute name, SQLAlchemy's `uselist` flag
(`true` for one-to-many, `false` for many-to-one/one-to-one) and the
attribute list of the related model (`arg1.property.mapper.class_`). -/
inductive Attr where
  | col (c : Column)
  | rel (name : String) (uselist : Bool) (target : List (String × Attr))

/-- The name under which an attribute appears on its model. -/
def attrName : Attr → String
  | .col c => c.name
  | .rel n _ _ => n

/-- First attribute with the given name, as Python's `getattr` resolves it
(exact, case-sensitive). -/
def attrLookup : List (String × Attr) → String → Option Attr
  | [], _ => none
  | (k, a) :: rest, n => if k = n then some a else attrLookup rest n

/-- A converted filter value: the result of `convert_type`.  `vNone` is
Python's `None` (the fall-through of `convert_type` on unrecognized types),
`timestamp` keeps the raw text handed to `dateutil.parser.parse` (the
external parser is modelled as total; its internals are outside this
repository). -/
inductive Value where
  | vNone
  | int (n : Int)
  | str (s : String)
  | timestamp (s : String)
deriving DecidableEq, Repr

/-- The SQLAlchemy expressions the operator functions construct, as an
inductive predicate language: one constructor per expression shape
appearing in the source (`col == v`, `col.like(v)`, `~e`, `col.in_(vs)`,
`rel.any(e)`, `rel.has(e)`, `and_(*es)`, ...). -/
inductive Predicate where
  | isNullP (col : String)
  | isNotNullP (col : String)
  | isTrueP (col : String)
  | isFalseP (col : String)
  | eqP (col : String) (v : Value)
  | neP (col : String) (v : Value)
  | ieqP (col : String) (v : Value)
  | gtP (col : String) (v : Value)
  | gteP (col : String) (v : Value)
  | ltP (col : String) (v : Value)
  | lteP (col : String) (v : Value)
  | likeP (col : String) (v : Value)
  | ilikeP (col : String) (v : Value)
  | notP (p : Predicate)
  | inP (col : String) (vs : List Value)
  | anyP (rel : String) (inner : Predicate)
  | hasP (rel : String) (inner : Predicate)
  | andP (ps : List Predicate)

/-! ## Python string primitives

The source relies on `str.rsplit(sep, maxsplit)`, `str.split(sep)`,
`str.lower()`, `str.strip()` and `int(str)`.  They are reimplemented here
on `List Char` with Python's semantics: `rsplit` finds non-overlapping
occurrences of the separator scanning from the right, which is the same as
splitting the reversed string from the left (the separators used, `"__"`
and `"="`, are their own reversal). -/

/-- Prepend a character to the first piece of a split result (the `[]` case
is unreachable: a split result is never the empty list). -/
def consHead (c : Char) : List (List Char) → List (List Char)
  | [] => [[c]]
  | p :: ps => (c :: p) :: ps

/-- Left-to-right split on the two-character separator `"__"` with a maximum
number of splits, Python-style: greedy leftmost non-overlapping matches. -/
def lsplitUU : Nat → List Char → List (List Char)
  | _, [] => [[]]
  | 0, c :: rest => [c :: rest]
  | _ + 1, [c] => [[c]]
  | k + 1, c :: c2 :: rest =>
    if c = '_' ∧ c2 = '_' then [] :: lsplitUU k rest
    else consHead c (lsplitUU (k + 1) (c2 :: rest))

/-- Left-to-right split on a single-character separator with a maximum
number of splits. -/
def lsplitChar (sep : Char) : Nat → List Char → List (List Char)
  | _, [] => [[]]
  | 0, c :: rest => [c :: rest]
  | k + 1, c :: rest =>
    if c = sep then [] :: lsplitChar sep k rest
    else consHead c (lsplitChar sep (k + 1) rest)

/-- Left-to-right split on a single-character separator at every
occurrence: Python's `s.split(sep)`. -/
def lsplitCharAll (sep : Char) : List Char → List (List Char)
  | [] => [[]]
  | c :: rest =>
    if c = sep then [] :: lsplitCharAll sep rest
    else consHead c (lsplitCharAll sep rest)

/-- Python's `s.rsplit("__", k)`: split from the right on the rightmost
non-overlapping occurrences of `"__"`.  Realized by splitting the reversed
string from the left (`"__"` reversed is itself) and reversing back. -/
def pyRsplitUU (k : Nat) (s : String) : List String :=
  ((lsplitUU k s.data.reverse).map (fun cs => String.mk cs.reverse)).reverse

/-- Python's `s.rsplit(sep, k)` for a one-character separator. -/
def pyRsplitChar (sep : Char) (k : Nat) (s : String) : List String :=
  ((lsplitChar sep k s.data.reverse).map (fun cs => String.mk cs.reverse)).reverse

/-- Python's `s.split(",")`. -/
def pySplitComma (s : String) : List String :=
  (lsplitCharAll ',' s.data).map String.mk

/-- Python's `str.lower()`, restricted to ASCII as everything the source
lowercases is ASCII operator syntax. -/
def pyLower (s : String) : String :=
  String.mk (s.data.map Char.toLower)

/-- The characters Python's `str.strip()` removes. -/
def isPySpace (c : Char) : Bool :=
  c = ' ' || c = '\t' || c = '\n' || c = '\x0b' || c = '\x0c' || c = '\r'

/-- Python's `str.strip()`: drop leading and trailing whitespace. -/
def pyStrip (s : String) : String :=
  String.mk (((s.data.dropWhile isPySpace).reverse.dropWhile isPySpace).reverse)

/-- After the optional sign of an integer literal: digits, with single
underscores allowed only between digits (Python 3.6+ numeric literals). -/
def pyDigitsRest : List Char → Bool
  | [] => true
  | '_' :: c :: rest => c.isDigit && pyDigitsRest rest
  | c :: rest => c.isDigit && pyDigitsRest rest

/-- A valid digit run for `int()`: nonempty, starts with a digit. -/
def pyDigitsOK : List Char → Bool
  | [] => false
  | c :: rest => c.isDigit && pyDigitsRest rest

/-- Numeric value of a digit run (underscores skipped). -/
def pyDigitsVal (cs : List Char) : Nat :=
  (cs.filter (· ≠ '_')).foldl (fun acc c => acc * 10 + (c.toNat - '0'.toNat)) 0

/-- Python's `int(s)`: optional surrounding whitespace, optional sign,
then a digit run; `none` models the `ValueError` on anything else. -/
def pyInt (s : String) : Option Int :=
  let cs := ((s.data.dropWhile isPySpace).reverse.dropWhile isPySpace).reverse
  match cs with
  | '+' :: rest => if pyDigitsOK rest then some (pyDigitsVal rest) else none
  | '-' :: rest => if pyDigitsOK rest then some (-(pyDigitsVal rest : Int)) else none
  | rest => if pyDigitsOK rest then some (pyDigitsVal rest) else none

/-! ## Parameter parser and filter builder -/

/-- `split_operator(param)`: split the raw key on the last `"__"`.  One
piece means no delimiter: the operator defaults to `"eq"`.  Two pieces
mean `(name, operator)`, the operator lowercased only when it is exactly
two characters long.  An empty name is the `ValueError` (`"No valid
parameter provided"`), modelled as `invalidParameter`.  The `[]` branch is
unreachable: `rsplit` never returns an empty list. -/
def split_operator (param : String) : Except QErr (String × String) :=
  match pyRsplitUU 1 param with
  | [n] => if n = "" then .error .invalidParameter else .ok (n, "eq")
  | n :: o :: _ =>
    let operator := if o.length = 2 then pyLower o else o
    if n = "" then .error .invalidParameter else .ok (n, operator)
  | [] => .error .invalidParameter

/-- A filter descriptor as produced by `build_filters`: the dict
`{"name": ..., "op": ..., "val": ...}`.  `val` is optional because the
query applier only reads it for non-unary operators and callers may omit
it for unary ones. -/
structure Filter where
  name : String
  op : String
  val : Option String
deriving DecidableEq, Repr

/-- `build_filters(query)`: for each `(key, value)` pair of the query
mapping (in insertion order), if `key.rsplit("__", 3)` has four pieces the
key is repacked as `{name: keys[0], op: keys[1],
val: keys[2] ++ "__" ++ keys[3] ++ "=" ++ value}` with no further checks;
otherwise `split_operator` parses it. -/
def build_filters (query : List (String × String)) : Except QErr (List Filter) :=
  query.mapM (fun kv =>
    let keys := pyRsplitUU 3 kv.1
    if h : keys.length = 4 then
      .ok ⟨keys[0], keys[1], some (keys[2] ++ "__" ++ keys[3] ++ "=" ++ kv.2)⟩
    else (split_operator kv.1).map (fun no => ⟨no.1, no.2, some kv.2⟩))

/-! ## Type classifier and value converter -/

/-- `convert_type(type_, value)`: unwrap the type's class one decoration
level, then convert by recognized base type.  Integer parses via `int`
(`ValueError` → `conversionError`); String passes the value through
unchanged (including Python `None`); DateTime hands the value to
`dateutil.parser.parse` (an external library, modelled as total);
unrecognized types fall through and return `None`.  A `none` value on the
Integer or DateTime paths is the dynamic `TypeError` of `int(None)` /
`parse(None)`, unreachable from the orchestrator. -/
def convert_type (type_ : SqlType) (value : Option String) : Except QErr Value :=
  match basetype type_ with
  | .integer =>
    match value with
    | some s =>
      match pyInt s with
      | some n => .ok (.int n)
      | none => .error .conversionError
    | none => .error .pyRuntimeError
  | .string => .ok (match value with | some s => .str s | none => .vNone)
  | .dateTime =>
    match value with
    | some s => .ok (.timestamp s)
    | none => .error .pyRuntimeError
  | _ => .ok .vNone

/-- The `requires_types` decorator: before the wrapped builder runs, check
that the column's one-level-unwrapped type is an instance of one of the
given classes; otherwise raise `TypeError("Cannot apply filter to field
{arg1.name}")` (`unsupportedOperator`).  On a relationship attribute the
`arg1.type` access itself fails dynamically. -/
def requires_types (types : List TypeClass)
    (f : Column → Option String → Except QErr Predicate) :
    Attr → Option String → Except QErr Predicate :=
  fun a v =>
    match a with
    | .col c =>
      if types.any (fun t => isinstanceOf (basetype c.type) t) then f c v
      else .error (.unsupportedOperator c.name)
    | .rel _ _ _ => .error .pyRuntimeError

/-- The `convert_generic` decorator: convert the raw value to the column's
type, then hand the converted value to the wrapped builder. -/
def convert_generic (f : Column → Value → Except QErr Predicate) :
    Column → Option String → Except QErr Predicate :=
  fun c v => (convert_type c.type v).bind (f c)

/-- The `convert_list` decorator: split the raw value on `","`, strip each
segment, convert each segment to the column's type (first failure
propagates), then hand the list to the wrapped builder.  A `none` value is
the dynamic `AttributeError` of `None.split`, unreachable from the
orchestrator. -/
def convert_list (f : Column → List Value → Except QErr Predicate) :
    Column → Option String → Except QErr Predicate :=
  fun c v =>
    match v with
    | none => .error .pyRuntimeError
    | some s =>
      ((pySplitComma s).mapM (fun arg => convert_type c.type (some (pyStrip arg)))).bind (f c)

/-! ## The operator functions -/

def is_null : Attr → Option String → Except QErr Predicate :=
  fun a _ => .ok (.isNullP (attrName a))

def is_not_null : Attr → Option String → Except QErr Predicate :=
  fun a _ => .ok (.isNotNullP (attrName a))

def is_true : Attr → Option String → Except QErr Predicate :=
  requires_types [.boolean] (fun c _ => .ok (.isTrueP c.name))

def is_false : Attr → Option String → Except QErr Predicate :=
  requires_types [.boolean] (fun c _ => .ok (.isFalseP c.name))

def equals : Attr → Option String → Except QErr Predicate :=
  requires_types [.integer, .string, .dateTime]
    (convert_generic (fun c v => .ok (.eqP c.name v)))

def not_equals : Attr → Option String → Except QErr Predicate :=
  requires_types [.integer, .string, .dateTime]
    (convert_generic (fun c v => .ok (.neP c.name v)))

/-- `ignore_case_equals` compares `lower(col)` with `arg2.lower()`; the
converted value is a string whenever the type gate passed, any other shape
is a dynamic `AttributeError`. -/
def ignore_case_equals : Attr → Option String → Except QErr Predicate :=
  requires_types [.string]
    (convert_generic (fun c v =>
      match v with
      | .str s => .ok (.ieqP c.name (.str (pyLower s)))
      | _ => .error .pyRuntimeError))

def greater_than : Attr → Option String → Except QErr Predicate :=
  requires_types [.integer, .dateTime]
    (convert_generic (fun c v => .ok (.gtP c.name v)))

def greater_than_equals : Attr → Option String → Except QErr Predicate :=
  requires_types [.integer, .dateTime]
    (convert_generic (fun c v => .ok (.gteP c.name v)))

def less_than : Attr → Option String → Except QErr Predicate :=
  requires_types [.integer, .dateTime]
    (convert_generic (fun c v => .ok (.ltP c.name v)))

def less_than_equals : Attr → Option String → Except QErr Predicate :=
  requires_types [.integer, .dateTime]
    (convert_generic (fun c v => .ok (.lteP c.name v)))

def like : Attr → Option String → Except QErr Predicate :=
  requires_types [.string] (convert_generic (fun c v => .ok (.likeP c.name v)))

def not_like : Attr → Option String → Except QErr Predicate :=
  requires_types [.string] (convert_generic (fun c v => .ok (.notP (.likeP c.name v))))

def ilike : Attr → Option String → Except QErr Predicate :=
  requires_types [.string] (convert_generic (fun c v => .ok (.ilikeP c.name v)))

def not_ilike : Attr → Option String → Except QErr Predicate :=
  requires_types [.string] (convert_generic (fun c v => .ok (.notP (.ilikeP c.name v))))

def in_ : Attr → Option String → Except QErr Predicate :=
  requires_types [.integer, .string] (convert_list (fun c vs => .ok (.inP c.name vs)))

def not_in : Attr → Option String → Except QErr Predicate :=
  requires_types [.integer, .string] (convert_list (fun c vs => .ok (.notP (.inP c.name vs))))

/-! ## Relationship traversal -/

/-- `get_subquery(arg1, arg2)`: require an `"="` in the composite value
(`KeyError` → `malformedSubquery` otherwise), reuse `split_operator` on
the value to peel off the related field name, resolve it on the related
model (`getattr` on `arg1.property.mapper.class_`; a missing attribute is
the `AttributeError`, mapped like every unknown-name failure to
`columnNotFound`), and right-split the remaining token on the last `"="`
into `[related_operator, embedded_value]`. -/
def get_subquery (target : List (String × Attr)) (arg2 : String) :
    Except QErr (Attr × List String) :=
  if arg2.data.contains '=' then
    (split_operator arg2).bind (fun subquery =>
      match attrLookup target subquery.1 with
      | some subquery_column => .ok (subquery_column, pyRsplitChar '=' 1 subquery.2)
      | none => .error (.columnNotFound subquery.1))
  else .error .malformedSubquery

/-- The four operator names the query applier calls without a value. -/
def UNARY_OPERATORS : List String := ["is_null", "is_not_null", "is_true", "is_false"]

/-- The `OPERATORS` dict together with its application: `applyOperator fuel
op a v` is `OPERATORS[op](a, v)`, with an unknown name being the dict's
`KeyError`.  The `with` entry is `with_` inlined (its
`requires_mapped_attribute` gate first: a plain column raises the
`TypeError` "... is not a mapped attribute"), building `rel.any(inner)`
for a one-to-many relationship and `rel.has(inner)` otherwise, where
`inner` comes from recursively applying the embedded operator.  The
recursion is fuelled: each nested `with` strictly shrinks the value string
it recurses on, so fuel `value.length + 1` (what the orchestrator
supplies) can never run out; the exhaustion branch is unreachable. -/
def applyOperator : Nat → String → Attr → Option String → Except QErr Predicate
  | fuel, "with", a, v =>
    match a with
    | .col c => .error (.notMapped c.name)
    | .rel name uselist target =>
      match fuel, v with
      | f + 1, some arg2 =>
        (get_subquery target arg2).bind (fun sq =>
          match sq.2 with
          | [o, val] =>
            (applyOperator f o sq.1 (some val)).map
              (fun inner => if uselist then .anyP name inner else .hasP name inner)
          | _ => .error .pyRuntimeError)
      | _ + 1, none => .error .pyRuntimeError
      | 0, _ => .error .pyRuntimeError
  | _, "is_null", a, v => is_null a v
  | _, "is_not_null", a, v => is_not_null a v
  | _, "is_true", a, v => is_true a v
  | _, "is_false", a, v => is_false a v
  | _, "eq", a, v => equals a v
  | _, "ne", a, v => not_equals a v
  | _, "ieq", a, v => ignore_case_equals a v
  | _, "gt", a, v => greater_than a v
  | _, "lt", a, v => less_than a v
  | _, "gte", a, v => greater_than_equals a v
  | _, "lte", a, v => less_than_equals a v
  | _, "like", a, v => like a v
  | _, "not_like", a, v => not_like a v
  | _, "ilike", a, v => ilike a v
  | _, "not_ilike", a, v => not_ilike a v
  | _, "in", a, v => in_ a v
  | _, "not_in", a, v => not_in a v
  | _, op, _, _ => .error (.unknownOperator op)

/-! ## Query applier -/

/-- A SQLAlchemy Core selectable, reduced to what the source reads from it:
its column list.  `selectable.alias("query")` renames the selectable but
exposes the same columns, so aliasing is the identity on this model. -/
structure Selectable where
  columns : List Column

/-- The select statement `core_query` produces: the aliased columns plus an
optional where-clause.  `whereclause = none` is a select built with no
restriction at all (`sqlalchemy.select([alias])`), distinct from any
trivially-true clause. -/
structure SelectQ where
  columns : List Column
  whereclause : Option Predicate

/-- An ORM query as `orm_query` produces it: `Query(model)` with the built
restrictions passed to `.filter(*restrictions)`. -/
structure OrmQuery where
  model : List (String × Attr)
  restrictions : List Predicate

/-- `get_column(s, name)`: scan the selectable's columns for the first one
whose lowercased name equals the lowercased requested name; `KeyError`
("column ... not found") otherwise. -/
def get_column (s : Selectable) (name : String) : Except QErr Column :=
  match s.columns.find? (fun col => pyLower col.name = pyLower name) with
  | some col => .ok col
  | none => .error (.columnNotFound name)

/-- `getattr(model, name)` on an ORM model: exact attribute lookup; the
`AttributeError` on a missing name is mapped to `columnNotFound` like every
unknown-name failure of the taxonomy. -/
def model_getattr (model : List (String × Attr)) (name : String) : Except QErr Attr :=
  match attrLookup model name with
  | some a => .ok a
  | none => .error (.columnNotFound name)

/-- The fuel handed to `applyOperator` for one filter: one unit more than
the length of the value it may recurse into, enough for every chain of
nested `with` operators since each nesting level strictly shrinks the
value string. -/
def opFuel : Option String → Nat
  | none => 1
  | some v => v.length + 1

/-- The body of `core_query`'s filter loop: resolve the column by
case-insensitive name, call the operator without a value if it is unary
and with `f["val"]` otherwise (a missing `val` on a binary operator is the
dict's `KeyError`). -/
def core_restriction (aliased : Selectable) (f : Filter) : Except QErr Predicate :=
  (get_column aliased f.name).bind (fun col =>
    if f.op ∈ UNARY_OPERATORS then applyOperator (opFuel none) f.op (.col col) none
    else
      match f.val with
      | some v => applyOperator (opFuel (some v)) f.op (.col col) (some v)
      | none => .error .pyRuntimeError)

/-- `core_query(selectable, filters)`: alias the selectable, build one
restriction per filter in order (the first failure propagates), and select
from the alias — with the conjunction of the restrictions as where-clause
when there are any, and with no where-clause at all when there are none. -/
def core_query (selectable : Selectable) (filters : List Filter) : Except QErr SelectQ :=
  (filters.mapM (core_restriction selectable)).map (fun restrictions =>
    if restrictions.isEmpty then ⟨selectable.columns, none⟩
    else ⟨selectable.columns, some (.andP restrictions)⟩)

/-- The body of `orm_query`'s filter loop: resolve the attribute with
`getattr`, then apply the operator as in the core path. -/
def orm_restriction (model : List (String × Attr)) (f : Filter) : Except QErr Predicate :=
  (model_getattr model f.name).bind (fun a =>
    if f.op ∈ UNARY_OPERATORS then applyOperator (opFuel none) f.op a none
    else
      match f.val with
      | some v => applyOperator (opFuel (some v)) f.op a (some v)
      | none => .error .pyRuntimeError)

/-- `orm_query(model, filters)`: `Query(model).filter(*restrictions)`. -/
def orm_query (model : List (String × Attr)) (filters : List Filter) : Except QErr OrmQuery :=
  (filters.mapM (orm_restriction model)).map (fun restrictions => ⟨model, restrictions⟩)

/-- The query target: a Core selectable or an ORM model, the source's
`isinstance(selectable_or_model, Selectable)` dispatch. -/
inductive Target where
  | coreT (sel : Selectable)
  | ormT (model : List (String × Attr))

/-- The filtered query before pagination, per target kind. -/
inductive Filtered where
  | coreF (s : SelectQ)
  | ormF (q : OrmQuery)

/-- The value `query` returns: the filtered query, the `order_by` column
with its descending flag if ordering was requested, the limit that is
always applied, and the offset — present only when one was actually
applied. -/
structure AppliedQuery where
  filtered : Filtered
  order : Option (String × Bool)
  limit : Int
  offset : Option Int

/-- The `use_core` dispatch at the top of `query`: `core_query` for a Core
selectable, `orm_query` for an ORM model. -/
def filteredOf (target : Target) (filters : List Filter) : Except QErr Filtered :=
  match target with
  | .coreT sel => (core_query sel filters).map .coreF
  | .ormT model => (orm_query model filters).map .ormF

/-- The `if order:` block of `query`: when the order name is truthy (not
`None`, not empty), resolve it on the original target — `get_column` for
Core, `getattr` for ORM — and record the descending flag (`.desc()` when
`asc` is false). -/
def orderOf (target : Target) (order : Option String) (asc : Bool) :
    Except QErr (Option (String × Bool)) :=
  match order with
  | none => .ok none
  | some o =>
    if o = "" then .ok none
    else
      match target with
      | .coreT sel => (get_column sel o).map (fun c => some (c.name, !asc))
      | .ormT model => (model_getattr model o).map (fun a => some (attrName a, !asc))

/-- `query(selectable_or_model, filters, limit, offset, order, asc)`: build
the filtered query by target kind; if `order` is truthy resolve the order
column on the original target (descending when `asc` is false); default
the limit to 10000 and clamp a supplied one to `min(int(limit), 10000)`,
always applying it; apply the offset only when it is truthy, so `None` and
`0` both leave the query without an offset clause. -/
def query (target : Target) (filters : List Filter)
    (limit : Option Int) (offset : Option Int)
    (order : Option String) (asc : Bool) :
    Except QErr AppliedQuery :=
  (filteredOf target filters).bind (fun filtered =>
    (orderOf target order asc).map (fun orderSpec =>
      { filtered := filtered
        order := orderSpec
        limit := match limit with | none => 10000 | some l => min l 10000
        offset := match offset with | none => none | some o => if o = 0 then none else some o }))

/-! ## Facts about the split primitives -/

theorem consHead_ne_nil (c : Char) (l : List (List Char)) : consHead c l ≠ [] := by
  cases l <;> simp [consHead]

theorem lsplitUU_ne_nil (k : Nat) (cs : List Char) : lsplitUU k cs ≠ [] := by
  induction k, cs using lsplitUU.induct <;> simp [lsplitUU] <;> split <;>
    simp [consHead_ne_nil]

theorem consHead_singleton {c : Char} {l : List (List Char)} {p : List Char}
    (h : consHead c l = [p]) : (l = [] ∧ p = [c]) ∨ ∃ q, l = [q] ∧ p = c :: q := by
  cases l with
  | nil => simp [consHead] at h; exact Or.inl ⟨rfl, h.symm⟩
  | cons q qs =>
    injection h with h1 h2
    exact Or.inr ⟨q, by rw [h2], h1.symm⟩

theorem lsplitUU_singleton : ∀ {k : Nat} {cs p : List Char}, lsplitUU k cs = [p] → p = cs := by
  intro k cs
  induction k, cs using lsplitUU.induct with
  | case1 k => intro p h; simp [lsplitUU] at h; exact h
  | case2 c rest => intro p h; simp [lsplitUU] at h; first | exact h | exact h.symm
  | case3 k c => intro p h; simp [lsplitUU] at h; first | exact h | exact h.symm
  | case4 k c c2 rest hcond ih =>
    intro p h
    exfalso
    simp only [lsplitUU] at h
    rw [if_pos hcond] at h
    injection h with h1 h2
    exact absurd h2 (lsplitUU_ne_nil k rest)
  | case5 k c c2 rest hcond ih =>
    intro p h
    simp only [lsplitUU] at h
    rw [if_neg hcond] at h
    rcases consHead_singleton h with ⟨hnil, _⟩ | ⟨q, hq, hp⟩
    · exact absurd hnil (lsplitUU_ne_nil _ _)
    · rw [hp, ih hq]

theorem pyRsplitUU_length_one {k : Nat} {s : String} (h : (pyRsplitUU k s).length = 1) :
    pyRsplitUU k s = [s] := by
  unfold pyRsplitUU at h ⊢
  rcases hl : lsplitUU k s.data.reverse with _ | ⟨q, qs⟩
  · exact absurd hl (lsplitUU_ne_nil _ _)
  · rw [hl] at h
    simp at h
    subst h
    have hq : q = s.data.reverse := lsplitUU_singleton hl
    simp [hq]

/-- Claim C1 (amended): `split_operator` splits on the last `"__"`; with no
delimiter (a one-piece rsplit) the name is the whole key and the operator
`"eq"`; with a delimiter the name is the left part and the operator the
right part, lowercased exactly when it is two characters long — in both
branches provided the resulting name is nonempty (an empty name raises
`InvalidParameter` instead, see the counterexample). -/
theorem split_operator_split_rule (param : String) :
    ((pyRsplitUU 1 param).length = 1 → param ≠ "" → split_operator param = .ok (param, "eq"))
    ∧ (∀ n op, pyRsplitUU 1 param = [n, op] → n ≠ "" →
        split_operator param = .ok (n, if op.length = 2 then pyLower op else op)) := by
  constructor
  · intro hlen hne
    have h1 := pyRsplitUU_length_one hlen
    unfold split_operator
    rw [h1]
    simp [hne]
  · intro n op h hn
    unfold split_operator
    rw [h]
    simp [hn]

/-- Claim C1, counterexample: the key `"__gt"` does contain the delimiter, so the
claim as stated promises `(name = "", operator = "gt")`; the code instead
fails with `InvalidParameter`. -/
theorem split_operator_counterexample :
    split_operator "__gt" = .error .invalidParameter := rfl

theorem split_operator_split_rule_witness :
    split_operator "field" = .ok ("field", "eq")
    ∧ split_operator "field__GT" = .ok ("field", "gt") :=
  ⟨(split_operator_split_rule "field").1 (by decide) (by decide),
   ((split_operator_split_rule "field__GT").2 "field" "GT" (by decide) (by decide)).trans rfl⟩

/-- Claim C2: a key whose right-split on `"__"` with maxsplit 3 has exactly four
segments is repacked: name and operator are the first two segments, and
the value becomes `third ++ "__" ++ fourth ++ "=" ++ raw value`. -/
theorem build_filters_four_segments (key v s0 s1 s2 s3 : String)
    (h : pyRsplitUU 3 key = [s0, s1, s2, s3]) :
    build_filters [(key, v)] = .ok [⟨s0, s1, some (s2 ++ "__" ++ s3 ++ "=" ++ v)⟩] := by
  simp [build_filters, List.mapM.loop, h]

theorem build_filters_four_segments_witness :
    build_filters [("f__with__sub__subop", "v")] = .ok [⟨"f", "with", some "sub__subop=v"⟩] :=
  (build_filters_four_segments "f__with__sub__subop" "v" "f" "with" "sub" "subop"
    (by decide)).trans rfl

/-- Claim C6: `core_query` with an empty filter list builds a select with no
where-clause at all (`whereclause = none`, not a trivially-true clause)
and the column set of the input selectable unchanged. -/
theorem core_query_no_filters (sel : Selectable) :
    core_query sel [] = .ok ⟨sel.columns, none⟩ := rfl

/-- Claim C9, counterexample: the key `"__a__b__c"` takes the four-segment repack
path of `build_filters`, where the field name (the first segment, here
empty) is never checked: the claim promises an `InvalidParameter` failure,
but the code returns a filter whose name is the empty string. -/
theorem build_filters_empty_name_counterexample :
    build_filters [("__a__b__c", "v")] = .ok [⟨"", "a", some "b__c=v"⟩] := rfl

/-- Claim C9 (amended): for every raw query key parsed by the simple
`name __ operator` rule — i.e. whose right-split on `"__"` with maxsplit 3
does not have four segments — an empty field name after splitting makes
`build_filters` fail with `InvalidParameter`; keys on the four-segment
repack path are exempt from the check. -/
theorem build_filters_empty_name (key v : String) (rest : List (String × String))
    (h4 : (pyRsplitUU 3 key).length ≠ 4)
    (hh : (pyRsplitUU 1 key).head? = some "") :
    build_filters ((key, v) :: rest) = .error .invalidParameter := by
  have hso : split_operator key = .error .invalidParameter := by
    unfold split_operator
    rcases hl : pyRsplitUU 1 key with _ | ⟨n, t⟩
    · simp [hl] at hh
    · rw [hl] at hh
      simp at hh
      cases t <;> simp [hh]
  simp [build_filters, List.mapM.loop, h4, hso, Except.map, Bind.bind, Except.bind]

theorem build_filters_empty_name_witness :
    build_filters [("__gt", "5")] = .error .invalidParameter :=
  build_filters_empty_name "__gt" "5" [] (by decide) (by decide)

/-- Claim C10: the four-segment repack triggers whenever the right-split with
maxsplit 3 has four segments, with the second segment becoming the
operator verbatim even when it is not `"with"`; in particular
`"a__gt__b__c"` yields `{name: "a", op: "gt", val: "b__c=" ++ v}` instead
of the simple split `("a__gt__b", "c")` that `split_operator` would give. -/
theorem build_filters_repack_verbatim :
    (∀ key v s0 s1 s2 s3, pyRsplitUU 3 key = [s0, s1, s2, s3] → s1 ≠ "with" →
        build_filters [(key, v)] = .ok [⟨s0, s1, some (s2 ++ "__" ++ s3 ++ "=" ++ v)⟩])
    ∧ (∀ v, build_filters [("a__gt__b__c", v)] = .ok [⟨"a", "gt", some ("b__c=" ++ v)⟩]
        ∧ split_operator "a__gt__b__c" = .ok ("a__gt__b", "c")) := by
  constructor
  · intro key v s0 s1 s2 s3 h _
    simp [build_filters, List.mapM.loop, h]
  · intro v
    refine ⟨?_, rfl⟩
    have h : pyRsplitUU 3 "a__gt__b__c" = ["a", "gt", "b", "c"] := by decide
    simp only [build_filters, List.mapM.loop, h]
    simp [← String.append_assoc]
    rfl

theorem build_filters_repack_verbatim_witness :
    build_filters [("x__op__y__z", "1")] = .ok [⟨"x", "op", some "y__z=1"⟩] :=
  (build_filters_repack_verbatim.1 "x__op__y__z" "1" "x" "op" "y" "z" (by decide)
    (by decide)).trans rfl

/-- Claim C3: the `requires_types` gate runs before the wrapped builder — for any
builder `f` whatsoever (in particular the conversion-then-build wrappers
used in the registry), a column whose one-level-unwrapped type is an
instance of none of the allowed classes makes the operator fail with
`UnsupportedOperator` naming the field, without `f` (hence without any
value conversion or predicate construction) ever running.  The second
conjunct instantiates this for the registry's `like` on a
non-String column, the spec's example. -/
theorem requires_types_gate :
    (∀ (types : List TypeClass) (f : Column → Option String → Except QErr Predicate)
        (c : Column) (v : Option String),
        (∀ t ∈ types, isinstanceOf (basetype c.type) t = false) →
        requires_types types f (.col c) v = .error (.unsupportedOperator c.name))
    ∧ (∀ (c : Column) (v : Option String),
        isinstanceOf (basetype c.type) .string = false →
        like (.col c) v = .error (.unsupportedOperator c.name)) := by
  have hgate : ∀ (types : List TypeClass) (f : Column → Option String → Except QErr Predicate)
      (c : Column) (v : Option String),
      (∀ t ∈ types, isinstanceOf (basetype c.type) t = false) →
      requires_types types f (.col c) v = .error (.unsupportedOperator c.name) := by
    intro types f c v h
    unfold requires_types
    have hany : types.any (fun t => isinstanceOf (basetype c.type) t) = false := by
      rw [List.any_eq_false]
      intro t ht
      simp [h t ht]
    simp [hany]
  exact ⟨hgate, fun c v h =>
    hgate [.string] _ c v (by intro t ht; simp at ht; subst ht; exact h)⟩

theorem requires_types_gate_witness :
    like (.col ⟨"age", .decorated .integer⟩) (some "%x%")
      = .error (.unsupportedOperator "age") :=
  requires_types_gate.2 ⟨"age", .decorated .integer⟩ (some "%x%") (by decide)

/-- Converting every element of a list on a String-typed column never
fails and passes each stripped segment through unchanged. -/
theorem mapM_loop_ok {α β : Type} (g : α → β) (f : α → Except QErr β)
    (hf : ∀ x, f x = .ok (g x)) :
    ∀ (l : List α) (acc : List β),
      List.mapM.loop f l acc = .ok (acc.reverse ++ l.map g) := by
  intro l
  induction l with
  | nil => intro acc; simp [List.mapM.loop, pure, Except.pure]
  | cons a as ih =>
    intro acc
    simp [List.mapM.loop, hf, Bind.bind, Except.bind, ih]

theorem mapM_convert_string {t : SqlType} (ht : basetype t = .string) (l : List String) :
    l.mapM (fun arg => convert_type t (some (pyStrip arg)))
      = .ok (l.map (fun arg => Value.str (pyStrip arg))) := by
  have hc : ∀ s, convert_type t (some (pyStrip s)) = .ok (.str (pyStrip s)) := by
    intro s; simp [convert_type, ht]
  simpa using mapM_loop_ok (fun arg => Value.str (pyStrip arg)) _ hc l []

/-- Claim C7: `convert_type` parses an Integer-typed value with `int` (failing
with `ConversionError` on non-numeric input) and passes a String-typed
value through unchanged; `convert_list` splits the raw value on `","`,
strips each segment, converts each independently and hands the full list
(empty segments included) to the builder — on a String column the list
is exactly the stripped segments, and an empty segment on an Integer
column fails the whole conversion (it is not filtered out). -/
theorem convert_type_spec :
    (∀ (t : SqlType) (v : String) (n : Int), basetype t = .integer → pyInt v = some n →
        convert_type t (some v) = .ok (.int n))
    ∧ (∀ (t : SqlType) (v : String), basetype t = .integer → pyInt v = none →
        convert_type t (some v) = .error .conversionError)
    ∧ (∀ (t : SqlType) (v : String), basetype t = .string →
        convert_type t (some v) = .ok (.str v))
    ∧ (∀ (f : Column → List Value → Except QErr Predicate) (t : SqlType) (name s : String),
        basetype t = .string →
        convert_list f ⟨name, t⟩ (some s)
          = f ⟨name, t⟩ (((pySplitComma s).map pyStrip).map Value.str))
    ∧ (∀ (f : Column → List Value → Except QErr Predicate),
        convert_list f ⟨"c", .integer⟩ (some "1,,3") = .error .conversionError) := by
  refine ⟨?_, ?_, ?_, ?_, ?_⟩
  · intro t v n ht hv
    simp [convert_type, ht, hv]
  · intro t v ht hv
    simp [convert_type, ht, hv]
  · intro t v ht
    simp [convert_type, ht]
  · intro f t name s ht
    have hc : ∀ x, convert_type t (some (pyStrip x)) = .ok (Value.str (pyStrip x)) := by
      intro x; simp [convert_type, ht]
    simp [convert_list, Except.bind, mapM_loop_ok (fun arg => Value.str (pyStrip arg)) _ hc,
      List.map_map, Function.comp]
    rfl
  · intro f
    rfl

theorem convert_type_spec_witness :
    convert_type SqlType.integer (some " 55 ") = .ok (.int 55)
    ∧ convert_type (SqlType.decorated .integer) (some "abc") = .error .conversionError
    ∧ convert_type SqlType.string (some "Oli") = .ok (.str "Oli")
    ∧ convert_list (fun c vs => .ok (.inP c.name vs)) ⟨"u_id", .string⟩ (some "1, 3,")
        = .ok (.inP "u_id" [.str "1", .str "3", .str ""])
    ∧ convert_list (fun c vs => .ok (.inP c.name vs)) ⟨"c", .integer⟩ (some "1,,3")
        = .error .conversionError :=
  ⟨convert_type_spec.1 .integer " 55 " 55 rfl (by decide),
   convert_type_spec.2.1 (.decorated .integer) "abc" rfl (by decide),
   convert_type_spec.2.2.1 .string "Oli" rfl,
   (convert_type_spec.2.2.2.1 (fun c vs => .ok (.inP c.name vs)) .string "u_id" "1, 3," rfl),
   convert_type_spec.2.2.2.2 (fun c vs => .ok (.inP c.name vs))⟩

theorem attrLookup_eq_none {l : List (String × Attr)} {n : String}
    (h : ∀ p ∈ l, p.1 ≠ n) : attrLookup l n = none := by
  induction l with
  | nil => rfl
  | cons p ps ih =>
    obtain ⟨k, a⟩ := p
    unfold attrLookup
    rw [if_neg (h (k, a) (by simp))]
    exact ih (fun q hq => h q (by simp [hq]))

/-- Claim C8: `get_column` resolves a name case-insensitively against the
selectable's columns — a returned column is one of them with matching
lowercased name, and when no column's lowercased name matches, it fails
with `ColumnNotFound` naming the request; on an ORM model the resolution
is a direct `getattr`, succeeding exactly on a declared attribute name and
failing the same way otherwise. -/
theorem column_resolution (s : Selectable) (model : List (String × Attr)) (name : String) :
    (∀ c : Column, get_column s name = .ok c →
        c ∈ s.columns ∧ pyLower c.name = pyLower name)
    ∧ ((∀ c ∈ s.columns, pyLower c.name ≠ pyLower name) →
        get_column s name = .error (.columnNotFound name))
    ∧ ((∀ p ∈ model, p.1 ≠ name) → model_getattr model name = .error (.columnNotFound name))
    ∧ (∀ a : Attr, attrLookup model name = some a → model_getattr model name = .ok a) := by
  refine ⟨?_, ?_, ?_, ?_⟩
  · intro c h
    unfold get_column at h
    cases hf : s.columns.find? (fun col => pyLower col.name = pyLower name) with
    | none => rw [hf] at h; exact absurd h (by simp)
    | some c2 =>
      rw [hf] at h
      injection h with h2
      subst h2
      exact ⟨List.mem_of_find?_eq_some hf, by simpa using List.find?_some hf⟩
  · intro h
    unfold get_column
    rw [List.find?_eq_none.mpr (fun c hc => by simpa using h c hc)]
  · intro h
    unfold model_getattr
    rw [attrLookup_eq_none h]
  · intro a h
    unfold model_getattr
    rw [h]

theorem column_resolution_witness :
    get_column ⟨[⟨"u_id", .integer⟩]⟩ "zz" = .error (.columnNotFound "zz")
    ∧ ((⟨"U_Id", .integer⟩ : Column) ∈ (⟨[⟨"U_Id", .integer⟩]⟩ : Selectable).columns
        ∧ pyLower "U_Id" = pyLower "u_id")
    ∧ model_getattr [("u_id", .col ⟨"u_id", .integer⟩)] "zz"
        = .error (.columnNotFound "zz") :=
  ⟨(column_resolution ⟨[⟨"u_id", .integer⟩]⟩ [] "zz").2.1 (by decide),
   (column_resolution ⟨[⟨"U_Id", .integer⟩]⟩ [] "u_id").1 ⟨"U_Id", .integer⟩ rfl,
   (column_resolution ⟨[]⟩ [("u_id", .col ⟨"u_id", .integer⟩)] "zz").2.2.1
     (by intro p hp; simp at hp; subst hp; decide)⟩

/-- Claim C4: whenever `query` succeeds, the limit is always present — 10000 when
none was supplied, `min(requested, 10000)` otherwise, hence never above
the ceiling — and the offset clause exists only when a truthy offset was
supplied: an omitted offset and an offset of 0 both produce a query with
no offset clause at all. -/
theorem query_limit_offset (target : Target) (filters : List Filter)
    (limit offset : Option Int) (order : Option String) (asc : Bool)
    (r : AppliedQuery) (h : query target filters limit offset order asc = .ok r) :
    r.limit = limit.elim (10000 : Int) (fun l => min l 10000)
    ∧ r.limit ≤ 10000
    ∧ r.offset = offset.elim none (fun o => if o = 0 then none else some o) := by
  unfold query at h
  cases hf : filteredOf target filters with
  | error e => rw [hf] at h; simp [Except.bind] at h
  | ok fv =>
    rw [hf] at h
    simp only [Except.bind] at h
    cases ho : orderOf target order asc with
    | error e => rw [ho] at h; simp [Except.map] at h
    | ok ov =>
      rw [ho] at h
      simp only [Except.map] at h
      injection h with h1
      subst h1
      refine ⟨?_, ?_, ?_⟩
      · cases limit <;> rfl
      · cases limit with
        | none => exact le_refl _
        | some l => exact min_le_right _ _
      · cases offset <;> rfl

theorem query_limit_offset_witness :
    ∃ r : AppliedQuery,
      query (.coreT ⟨[]⟩) [] (some 999999) (some 0) none true = .ok r
      ∧ r.limit ≤ 10000 ∧ r.offset = none := by
  refine ⟨_, rfl, ?_, ?_⟩
  · exact (query_limit_offset (.coreT ⟨[]⟩) [] (some 999999) (some 0) none true _ rfl).2.1
  · exact (query_limit_offset (.coreT ⟨[]⟩) [] (some 999999) (some 0) none true _ rfl).2.2

/-- Unfolding equation for the `with` entry of the operator registry on a
relationship attribute with a supplied value. -/
theorem applyOperator_with_rel (fuel : Nat) (name : String) (uselist : Bool)
    (target : List (String × Attr)) (arg2 : String) :
    applyOperator (fuel + 1) "with" (.rel name uselist target) (some arg2)
      = (get_subquery target arg2).bind (fun sq =>
          match sq.2 with
          | [o, val] =>
            (applyOperator fuel o sq.1 (some val)).map
              (fun inner => if uselist then Predicate.anyP name inner
                else Predicate.hasP name inner)
          | _ => .error .pyRuntimeError) := rfl

/-- Claim C5: the `with` operator fails with `NotMappedError` when its attribute
is a plain column rather than a relationship; on a relationship it fails
with `MalformedSubquery` when the composite value contains no `"="`; and
whenever it succeeds, the built predicate is `rel.any(inner)` for a
one-to-many relationship (`uselist = true`) and `rel.has(inner)` for a
many-to-one/one-to-one one, where `inner` is the predicate the embedded
operator builds against the related model via `get_subquery`. -/
theorem with_operator_spec :
    (∀ (fuel : Nat) (c : Column) (v : Option String),
        applyOperator fuel "with" (.col c) v = .error (.notMapped c.name))
    ∧ (∀ (fuel : Nat) (name : String) (uselist : Bool) (target : List (String × Attr))
        (arg2 : String), '=' ∉ arg2.data →
        applyOperator (fuel + 1) "with" (.rel name uselist target) (some arg2)
          = .error .malformedSubquery)
    ∧ (∀ (fuel : Nat) (name : String) (uselist : Bool) (target : List (String × Attr))
        (arg2 : String) (p : Predicate),
        applyOperator (fuel + 1) "with" (.rel name uselist target) (some arg2) = .ok p →
        ∃ (sub : Attr) (o val : String) (inner : Predicate),
          get_subquery target arg2 = .ok (sub, [o, val])
          ∧ applyOperator fuel o sub (some val) = .ok inner
          ∧ p = (if uselist then Predicate.anyP name inner else Predicate.hasP name inner)) := by
  refine ⟨fun fuel c v => by cases fuel <;> rfl, ?_, ?_⟩
  · intro fuel name uselist target arg2 h
    have hg : get_subquery target arg2 = .error .malformedSubquery := by
      unfold get_subquery
      rw [if_neg (by simpa using h)]
    rw [applyOperator_with_rel, hg]
    rfl
  · intro fuel name uselist target arg2 p hp
    rw [applyOperator_with_rel] at hp
    cases hsq : get_subquery target arg2 with
    | error e => rw [hsq] at hp; simp [Except.bind] at hp
    | ok sq =>
      obtain ⟨sub, l⟩ := sq
      rw [hsq] at hp
      simp only [Except.bind] at hp
      rcases l with _ | ⟨o, _ | ⟨val, _ | ⟨x, xs⟩⟩⟩
      · simp at hp
      · simp at hp
      · simp only [Except.map] at hp
        cases hin : applyOperator fuel o sub (some val) with
        | error e => rw [hin] at hp; simp at hp
        | ok inner =>
          rw [hin] at hp
          simp at hp
          exact ⟨sub, o, val, inner, rfl, hin, hp.symm⟩
      · simp at hp

theorem with_operator_spec_witness :
    applyOperator 1 "with" (.col ⟨"u_name", .string⟩) (some "x")
      = .error (.notMapped "u_name")
    ∧ applyOperator 1 "with" (.rel "pets" true []) (some "nosep")
      = .error .malformedSubquery
    ∧ ∃ (sub : Attr) (o val : String) (inner : Predicate),
        get_subquery [("p_name", Attr.col ⟨"p_name", .string⟩)] "p_name__eq=Hooch"
          = .ok (sub, [o, val])
        ∧ applyOperator 1 o sub (some val) = .ok inner
        ∧ Predicate.anyP "pets" (.eqP "p_name" (.str "Hooch"))
          = (if true then Predicate.anyP "pets" inner else Predicate.hasP "pets" inner) :=
  ⟨with_operator_spec.1 1 ⟨"u_name", .string⟩ (some "x"),
   with_operator_spec.2.1 0 "pets" true [] "nosep" (by decide),
   with_operator_spec.2.2 1 "pets" true [("p_name", .col ⟨"p_name", .string⟩)]
     "p_name__eq=Hooch" (.anyP "pets" (.eqP "p_name" (.str "Hooch"))) rfl⟩

end QSqla
